import Mathlib

/-!
Shallow embedding of `bids_with_ses.py`, a heudiconv heuristic that
classifies imaging-sequence metadata records into BIDS output buckets.
The embedding follows the Python source line by line:

  * `create_key` validates its template argument and returns the key
    triple `(template, outtype, annotation_classes)`;
  * `infotodict` initialises one empty bucket per key and runs a single
    `foldl` pass over the records, mirroring the `if/elif` rule chain.

Python values that may be either a boolean or a string (the
motion-corrected flag) are embedded as a sum type with Python
truthiness; Python dynamic arguments (the template) are embedded as a
small dynamic-value type.
-/

/-- A Python value that may be handed to `create_key` as template:
a string, `None`, or an integer (standing for any non-string object). -/
inductive PyObj : Type where
  | pyStr (s : String)
  | pyNone
  | pyInt (n : Int)
deriving DecidableEq, Repr

/-- The key triple returned by `create_key`:
`(template, outtype, annotation_classes)`.  The third component is
called `ann_classes` here. -/
structure Key where
  template : String
  outtype : List String
  ann_classes : Option (List String)
deriving DecidableEq, Repr

/-- `create_key(template, outtype=('nii.gz',), annotation_classes=None)`:
raises `ValueError('Template must be a non-empty string')` unless the
template is a non-empty string, and otherwise returns the triple. -/
def create_key (template : PyObj) (outtype : List String)
    (ann_classes : Option (List String)) : Except String Key :=
  match template with
  | PyObj.pyStr s =>
      if s = "" then Except.error "Template must be a non-empty string"
      else Except.ok ⟨s, outtype, ann_classes⟩
  | _ => Except.error "Template must be a non-empty string"

/-- `create_key` applied with its Python default arguments, as every
call inside `infotodict` does. -/
def create_key1 (template : PyObj) : Except String Key :=
  create_key template ["nii.gz"] none

/-- C3: for every non-empty template string the construction succeeds and
returns a key whose template equals the input; for the empty string and
for non-string templates it fails with the ValueError message. -/
theorem create_key_spec :
    (∀ s : String, s ≠ "" →
      create_key1 (PyObj.pyStr s) = Except.ok ⟨s, ["nii.gz"], none⟩) ∧
    create_key1 (PyObj.pyStr "") =
      Except.error "Template must be a non-empty string" ∧
    (∀ v : PyObj, (∀ s : String, v ≠ PyObj.pyStr s) →
      create_key1 v = Except.error "Template must be a non-empty string") := by
  refine ⟨?_, ?_, ?_⟩
  · intro s hs
    simp [create_key1, create_key, hs]
  · rfl
  · intro v hv
    cases v with
    | pyStr s => exact absurd rfl (hv s)
    | pyNone => rfl
    | pyInt n => rfl

/-- C3 witness: `create_key_spec` applied at the concrete template
string "a" and at the concrete non-string `None`. -/
theorem create_key_spec_witness :
    create_key1 (PyObj.pyStr "a") = Except.ok ⟨"a", ["nii.gz"], none⟩ ∧
    create_key1 PyObj.pyNone =
      Except.error "Template must be a non-empty string" :=
  ⟨create_key_spec.1 "a" (by decide),
   create_key_spec.2.2 PyObj.pyNone (by intro s h; cases h)⟩

/-- C10: every non-string template is rejected with the same ValueError
used for the empty string, and consequently every successfully
constructed key has a non-empty string template. -/
theorem create_key_nonstring_rejected :
    (∀ v : PyObj, (∀ s : String, v ≠ PyObj.pyStr s) →
      create_key1 v = Except.error "Template must be a non-empty string") ∧
    (∀ (v : PyObj) (k : Key), create_key1 v = Except.ok k →
      ∃ s : String, v = PyObj.pyStr s ∧ s ≠ "" ∧ k.template = s) := by
  constructor
  · intro v hv
    cases v with
    | pyStr s => exact absurd rfl (hv s)
    | pyNone => rfl
    | pyInt n => rfl
  · intro v k hk
    cases v with
    | pyStr s =>
      by_cases hs : s = ""
      · subst hs; simp [create_key1, create_key] at hk
      · refine ⟨s, rfl, hs, ?_⟩
        simp [create_key1, create_key, hs] at hk
        simp [← hk]
    | pyNone => simp [create_key1, create_key] at hk
    | pyInt n => simp [create_key1, create_key] at hk

/-- C10 witness: `create_key_nonstring_rejected` applied at the concrete
non-string template `7` and at the concrete successful construction
from "a". -/
theorem create_key_nonstring_rejected_witness :
    create_key1 (PyObj.pyInt 7) =
      Except.error "Template must be a non-empty string" ∧
    ∃ s : String, PyObj.pyStr "a" = PyObj.pyStr s ∧ s ≠ "" ∧
      (Key.mk "a" ["nii.gz"] none).template = s :=
  ⟨create_key_nonstring_rejected.1 (PyObj.pyInt 7) (by intro s h; cases h),
   create_key_nonstring_rejected.2 (PyObj.pyStr "a") ⟨"a", ["nii.gz"], none⟩
     rfl⟩

/-- The motion-corrected flag of a record: depending on the upstream
extraction tool it arrives as a native boolean or as a string. -/
inductive PyFlag : Type where
  | pyBool (b : Bool)
  | pyStrF (s : String)
deriving DecidableEq, Repr

/-- Python truthiness of the flag, as tested by
`elif (sl == 32) and (nt == 136) and motion_corrected:` — a boolean is
itself, a string is truthy when it is non-empty. -/
def PyFlag.truthy : PyFlag → Bool
  | PyFlag.pyBool b => b
  | PyFlag.pyStrF s => !(s == "")

/-- One row `s` of the DICOM information file, holding the fields the
classifier reads: `s[2]` (series number), `s[12]` (protocol name),
`s[13]` (motion corrected) and `s[6], s[7], s[8], s[9]` (x, y, slice
count, frame count).  `x` and `y` are bound but unused by the rules. -/
structure SeqRecord where
  series_number : Int
  protocol_name : String
  motion_corrected : PyFlag
  x : Int
  y : Int
  sl : Int
  nt : Int
deriving DecidableEq, Repr

/-- `pat` is a leading segment of `l` (character lists). -/
def leadsWith : List Char → List Char → Bool
  | _, [] => true
  | [], _ :: _ => false
  | c :: cs, p :: ps => c == p && leadsWith cs ps

/-- `pat` occurs as a contiguous segment of `l` (character lists). -/
def containsSeg : List Char → List Char → Bool
  | [], pat => pat.isEmpty
  | c :: cs, pat => leadsWith (c :: cs) pat || containsSeg cs pat

/-- Python substring containment `pat in s`, case-sensitive and not
anchored. -/
def strContains (s pat : String) : Bool :=
  containsSeg s.toList pat.toList

/-- One bucket entry: a bare series number (anatomical buckets) or a
parameter dictionary `{'item': n, field: value}` (functional/fieldmap
buckets). -/
inductive Entry : Type where
  | ser (n : Int)
  | params (item : Int) (field : String) (value : String)
deriving DecidableEq, Repr

/-- A bucket of matches for one key. -/
abbrev Bucket : Type := List Entry

/-- The `info` mapping, as an association list from key to bucket. -/
abbrev Info : Type := List (Key × Bucket)

/-- Key for T1-weighted anatomical scans. -/
def t1 : Key := ⟨"{session}/anat/sub-{subject}_{session}_T1w", ["nii.gz"], none⟩

/-- Key for T2-weighted anatomical scans. -/
def t2 : Key := ⟨"{session}/anat/sub-{subject}_{session}_T2w", ["nii.gz"], none⟩

/-- Key for resting-state functional scans. -/
def rest : Key :=
  ⟨"{session}/func/sub-{subject}_{session}_task-rest_acq-{direction}_bold",
   ["nii.gz"], none⟩

/-- Key for task functional scans. -/
def task : Key :=
  ⟨"{session}/func/sub-{subject}_{session}_task-{task_name}_run-{item:02d}_bold",
   ["nii.gz"], none⟩

/-- Key for spin-echo EPI fieldmaps. -/
def spin_echo : Key :=
  ⟨"{session}/fmap/sub-{subject}_{session}_dir-{direction}_epi", ["nii.gz"], none⟩

/-- The five keys in `infotodict` are exactly what `create_key` returns
on their template strings. -/
theorem keys_from_create_key :
    create_key1 (PyObj.pyStr t1.template) = Except.ok t1 ∧
    create_key1 (PyObj.pyStr t2.template) = Except.ok t2 ∧
    create_key1 (PyObj.pyStr rest.template) = Except.ok rest ∧
    create_key1 (PyObj.pyStr task.template) = Except.ok task ∧
    create_key1 (PyObj.pyStr spin_echo.template) = Except.ok spin_echo := by
  refine ⟨rfl, rfl, rfl, rfl, rfl⟩

/-- `info[k].append(e)`: append `e` to the bucket of `k`, leaving every
other bucket unchanged. -/
def appendTo (info : Info) (k : Key) (e : Entry) : Info :=
  info.map (fun p => if p.1 = k then (p.1, p.2 ++ [e]) else p)

/-- Look up the bucket of `k` in the mapping. -/
def lookupKey (k : Key) : Info → Option Bucket
  | [] => none
  | p :: rest => if p.1 = k then some p.2 else lookupKey k rest

/-- The initial mapping
`info = {t1: [], t2: [], rest: [], task: [], spin_echo: []}`. -/
def initInfo : Info := [(t1, []), (t2, []), (rest, []), (task, []), (spin_echo, [])]

/-- The body of the `for s in seqinfo` loop: the ordered `if/elif`
rule chain of `infotodict`, transcribed condition by condition. -/
def step (info : Info) (s : SeqRecord) : Info :=
  if (s.sl == 176 || s.sl == 704) && (s.nt == 1) &&
      strContains s.protocol_name "MEMPRAGE" then
    appendTo info t1 (Entry.ser s.series_number)
  else if (s.sl == 176) && (s.nt == 1) &&
      strContains s.protocol_name "T2_SPACE" then
    appendTo info t2 (Entry.ser s.series_number)
  else if (s.sl == 65) && (s.nt == 300) then
    if strContains s.protocol_name "rffMRI_AP" then
      appendTo info rest (Entry.params s.series_number "direction" "AP")
    else if strContains s.protocol_name "rsfMRI_PA" then
      appendTo info rest (Entry.params s.series_number "direction" "PA")
    else info
  else if (s.sl == 32) && (s.nt == 136) && s.motion_corrected.truthy then
    if strContains s.protocol_name "fMRI_listen" then
      appendTo info task (Entry.params s.series_number "task_name" "listen")
    else if strContains s.protocol_name "fMRI_selfref" then
      appendTo info task (Entry.params s.series_number "task_name" "selfref")
    else info
  else if (s.sl == 260) && (s.nt == 1) then
    if strContains s.protocol_name "Spin_Echo_EPI_AP" then
      appendTo info spin_echo (Entry.params s.series_number "direction" "AP")
    else if strContains s.protocol_name "Spin_Echo_EPI_PA" then
      appendTo info spin_echo (Entry.params s.series_number "direction" "PA")
    else info
  else info

/-- `infotodict(seqinfo)`: initialise the five buckets and run the
single pass over the records. -/
def infotodict (seqinfo : List SeqRecord) : Info :=
  seqinfo.foldl step initInfo

/-- Appending to one bucket never changes the set of keys. -/
theorem appendTo_map_fst (info : Info) (k : Key) (e : Entry) :
    (appendTo info k e).map Prod.fst = info.map Prod.fst := by
  unfold appendTo
  rw [List.map_map]
  apply List.map_congr_left
  intro p _
  by_cases h : p.1 = k <;> simp [h]

/-- One loop iteration never changes the set of keys. -/
theorem step_map_fst (info : Info) (s : SeqRecord) :
    (step info s).map Prod.fst = info.map Prod.fst := by
  unfold step
  repeat' split
  all_goals simp [appendTo_map_fst]

/-- The whole pass never changes the set of keys. -/
theorem foldl_step_map_fst (l : List SeqRecord) (info : Info) :
    (l.foldl step info).map Prod.fst = info.map Prod.fst := by
  induction l generalizing info with
  | nil => rfl
  | cons s rest ih => rw [List.foldl_cons, ih, step_map_fst]

/-- Looking up a different key is unaffected by an append. -/
theorem lookup_appendTo_ne (info : Info) (k k' : Key) (e : Entry)
    (h : k' ≠ k) : lookupKey k' (appendTo info k e) = lookupKey k' info := by
  induction info with
  | nil => rfl
  | cons p rest ih =>
    by_cases hp : p.1 = k
    · have hne : ¬ p.1 = k' := by rw [hp]; exact fun hh => h hh.symm
      calc lookupKey k' (appendTo (p :: rest) k e)
          = lookupKey k' ((p.1, p.2 ++ [e]) :: appendTo rest k e) := by
            simp [appendTo, hp]
        _ = lookupKey k' (appendTo rest k e) := by simp [lookupKey, hne]
        _ = lookupKey k' rest := ih
        _ = lookupKey k' (p :: rest) := by simp [lookupKey, hne]
    · by_cases hp' : p.1 = k'
      · calc lookupKey k' (appendTo (p :: rest) k e)
            = lookupKey k' (p :: appendTo rest k e) := by simp [appendTo, hp]
          _ = some p.2 := by simp [lookupKey, hp']
          _ = lookupKey k' (p :: rest) := by simp [lookupKey, hp']
      · calc lookupKey k' (appendTo (p :: rest) k e)
            = lookupKey k' (p :: appendTo rest k e) := by simp [appendTo, hp]
          _ = lookupKey k' (appendTo rest k e) := by simp [lookupKey, hp']
          _ = lookupKey k' rest := ih
          _ = lookupKey k' (p :: rest) := by simp [lookupKey, hp']

/-- Looking up the appended key returns its old bucket with the entry
appended (when the key is present). -/
theorem lookup_appendTo_eq (info : Info) (k : Key) (e : Entry) :
    lookupKey k (appendTo info k e) = (lookupKey k info).map (fun b => b ++ [e]) := by
  induction info with
  | nil => rfl
  | cons p rest ih =>
    by_cases hp : p.1 = k
    · calc lookupKey k (appendTo (p :: rest) k e)
          = lookupKey k ((p.1, p.2 ++ [e]) :: appendTo rest k e) := by
            simp [appendTo, hp]
        _ = some (p.2 ++ [e]) := by simp [lookupKey, hp]
        _ = (lookupKey k (p :: rest)).map (fun b => b ++ [e]) := by
            simp [lookupKey, hp]
    · calc lookupKey k (appendTo (p :: rest) k e)
          = lookupKey k (p :: appendTo rest k e) := by simp [appendTo, hp]
        _ = lookupKey k (appendTo rest k e) := by simp [lookupKey, hp]
        _ = (lookupKey k rest).map (fun b => b ++ [e]) := ih
        _ = (lookupKey k (p :: rest)).map (fun b => b ++ [e]) := by
            simp [lookupKey, hp]

/-- The key of the bucket a record's matched rule appends to, `none`
when no rule matches — the same `if/elif` chain as `step`, keeping only
the target of each branch. -/
def hitKey (s : SeqRecord) : Option Key :=
  if (s.sl == 176 || s.sl == 704) && (s.nt == 1) &&
      strContains s.protocol_name "MEMPRAGE" then
    some t1
  else if (s.sl == 176) && (s.nt == 1) &&
      strContains s.protocol_name "T2_SPACE" then
    some t2
  else if (s.sl == 65) && (s.nt == 300) then
    if strContains s.protocol_name "rffMRI_AP" then some rest
    else if strContains s.protocol_name "rsfMRI_PA" then some rest
    else none
  else if (s.sl == 32) && (s.nt == 136) && s.motion_corrected.truthy then
    if strContains s.protocol_name "fMRI_listen" then some task
    else if strContains s.protocol_name "fMRI_selfref" then some task
    else none
  else if (s.sl == 260) && (s.nt == 1) then
    if strContains s.protocol_name "Spin_Echo_EPI_AP" then some spin_echo
    else if strContains s.protocol_name "Spin_Echo_EPI_PA" then some spin_echo
    else none
  else none

/-- One iteration leaves every bucket the record does not hit unchanged. -/
theorem step_lookup_other (info : Info) (s : SeqRecord) (k : Key)
    (hk : hitKey s ≠ some k) :
    lookupKey k (step info s) = lookupKey k info := by
  unfold step
  unfold hitKey at hk
  split_ifs at hk ⊢ <;>
    first
      | rfl
      | exact lookup_appendTo_ne _ _ _ _ (fun h => hk (by rw [h]))

/-- A bucket hit by no record of the pass keeps its starting content. -/
theorem foldl_lookup_unhit (l : List SeqRecord) (info : Info) (k : Key)
    (h : ∀ s ∈ l, hitKey s ≠ some k) :
    lookupKey k (l.foldl step info) = lookupKey k info := by
  induction l generalizing info with
  | nil => rfl
  | cons s tl ih =>
    rw [List.foldl_cons, ih _ (fun x hx => h x (List.mem_cons_of_mem _ hx)),
      step_lookup_other _ _ _ (h s (List.mem_cons_self _ _))]

/-- C4: for every input sequence, the returned mapping holds exactly the
five registered keys (one bucket each, in registry order); on the empty
sequence every bucket is present and empty; and a registered key whose
rule matched no record of the input is still present with an empty
bucket. -/
theorem info_has_all_keys (seqinfo : List SeqRecord) :
    (infotodict seqinfo).map Prod.fst = [t1, t2, rest, task, spin_echo] ∧
    infotodict [] = [(t1, []), (t2, []), (rest, []), (task, []), (spin_echo, [])] ∧
    (∀ k : Key, k ∈ [t1, t2, rest, task, spin_echo] →
      (∀ s ∈ seqinfo, hitKey s ≠ some k) →
      lookupKey k (infotodict seqinfo) = some []) := by
  refine ⟨?_, rfl, ?_⟩
  · rw [infotodict, foldl_step_map_fst]
    rfl
  · intro k hmem hnone
    rw [infotodict, foldl_lookup_unhit _ _ _ hnone]
    fin_cases hmem <;> rfl

/-- C4 witness: `info_has_all_keys` applied at a one-record input whose
record matches the T1 rule, looking up the T2 key (whose rule matched
no record): its bucket is present and empty. -/
theorem info_has_all_keys_witness :
    lookupKey t2 (infotodict
      [SeqRecord.mk 1 "MEMPRAGE" (PyFlag.pyBool false) 0 0 176 1]) = some [] :=
  (info_has_all_keys
    [SeqRecord.mk 1 "MEMPRAGE" (PyFlag.pyBool false) 0 0 176 1]).2.2 t2
    (by decide) (by decide)

/-- A record satisfying the T1 condition takes the first branch. -/
theorem step_t1_eq (info : Info) (s : SeqRecord)
    (hsl : s.sl = 176 ∨ s.sl = 704) (hnt : s.nt = 1)
    (hp : strContains s.protocol_name "MEMPRAGE" = true) :
    step info s = appendTo info t1 (Entry.ser s.series_number) := by
  cases hsl with
  | inl h => simp [step, h, hnt, hp]
  | inr h => simp [step, h, hnt, hp]

/-- A record satisfying the rest condition with an AP protocol takes the
rest/AP branch. -/
theorem step_rest_ap (info : Info) (s : SeqRecord)
    (hsl : s.sl = 65) (hnt : s.nt = 300)
    (hp : strContains s.protocol_name "rffMRI_AP" = true) :
    step info s = appendTo info rest
      (Entry.params s.series_number "direction" "AP") := by
  simp [step, hsl, hnt, hp]

/-- A record satisfying the rest condition with a PA protocol (and not
the AP substring) takes the rest/PA branch. -/
theorem step_rest_pa (info : Info) (s : SeqRecord)
    (hsl : s.sl = 65) (hnt : s.nt = 300)
    (hap : strContains s.protocol_name "rffMRI_AP" = false)
    (hp : strContains s.protocol_name "rsfMRI_PA" = true) :
    step info s = appendTo info rest
      (Entry.params s.series_number "direction" "PA") := by
  simp [step, hsl, hnt, hap, hp]

/-- C5: a record with slice count 176 or 704, frame count 1 and a
protocol containing "MEMPRAGE" is appended to the T1 bucket (series
number only), and every other bucket is left exactly as it was —
first match wins even if a later rule's condition also holds. -/
theorem t1_rule_classifies (info : Info) (s : SeqRecord)
    (hsl : s.sl = 176 ∨ s.sl = 704) (hnt : s.nt = 1)
    (hp : strContains s.protocol_name "MEMPRAGE" = true) :
    step info s = appendTo info t1 (Entry.ser s.series_number) ∧
    lookupKey t1 (step info s) =
      (lookupKey t1 info).map (fun b => b ++ [Entry.ser s.series_number]) ∧
    (∀ k : Key, k ≠ t1 → lookupKey k (step info s) = lookupKey k info) := by
  have hstep := step_t1_eq info s hsl hnt hp
  refine ⟨hstep, ?_, ?_⟩
  · rw [hstep, lookup_appendTo_eq]
  · intro k hk
    rw [hstep, lookup_appendTo_ne _ _ _ _ hk]

/-- C5 witness: `t1_rule_classifies` applied at a concrete record whose
protocol satisfies both the T1 and the T2 substring tests
(sl = 176, nt = 1, protocol "MEMPRAGE_T2_SPACE"): the record lands in
the T1 bucket and the T2 bucket stays empty. -/
theorem t1_rule_classifies_witness :
    step initInfo (SeqRecord.mk 7 "MEMPRAGE_T2_SPACE" (PyFlag.pyBool false) 256 256 176 1) =
      appendTo initInfo t1 (Entry.ser 7) ∧
    lookupKey t2 (step initInfo
      (SeqRecord.mk 7 "MEMPRAGE_T2_SPACE" (PyFlag.pyBool false) 256 256 176 1)) =
      lookupKey t2 initInfo :=
  ⟨(t1_rule_classifies initInfo
      (SeqRecord.mk 7 "MEMPRAGE_T2_SPACE" (PyFlag.pyBool false) 256 256 176 1)
      (Or.inl rfl) rfl (by decide)).1,
   (t1_rule_classifies initInfo
      (SeqRecord.mk 7 "MEMPRAGE_T2_SPACE" (PyFlag.pyBool false) 256 256 176 1)
      (Or.inl rfl) rfl (by decide)).2.2 t2 (by decide)⟩

/-- C1 counterexample: two T1 records in sequence (series numbers 1 and
2, each with sl = 176, nt = 1, protocol "MEMPRAGE") leave the T1 bucket
holding BOTH series numbers, not only the second one — the code appends,
it does not replace. -/
theorem t1_replace_counterexample :
    lookupKey t1 (infotodict
      [SeqRecord.mk 1 "MEMPRAGE" (PyFlag.pyBool false) 0 0 176 1,
       SeqRecord.mk 2 "MEMPRAGE" (PyFlag.pyBool false) 0 0 176 1]) =
      some [Entry.ser 1, Entry.ser 2] ∧
    some [Entry.ser 1, Entry.ser 2] ≠ some ([Entry.ser 2] : Bucket) := by
  exact ⟨by decide, by decide⟩

/-- C1 amended: for two records that both satisfy the T1 rule, the T1
bucket of the returned mapping holds both series numbers in encounter
order (append semantics). -/
theorem t1_appends_both (r1 r2 : SeqRecord)
    (h1sl : r1.sl = 176 ∨ r1.sl = 704) (h1nt : r1.nt = 1)
    (h1p : strContains r1.protocol_name "MEMPRAGE" = true)
    (h2sl : r2.sl = 176 ∨ r2.sl = 704) (h2nt : r2.nt = 1)
    (h2p : strContains r2.protocol_name "MEMPRAGE" = true) :
    lookupKey t1 (infotodict [r1, r2]) =
      some [Entry.ser r1.series_number, Entry.ser r2.series_number] := by
  have e1 := step_t1_eq initInfo r1 h1sl h1nt h1p
  have e2 := step_t1_eq (step initInfo r1) r2 h2sl h2nt h2p
  show lookupKey t1 (step (step initInfo r1) r2) = _
  rw [e2, lookup_appendTo_eq, e1, lookup_appendTo_eq]
  rfl

/-- C1 amended witness: `t1_appends_both` applied at the concrete pair
of records with series numbers 1 and 2. -/
theorem t1_appends_both_witness :
    lookupKey t1 (infotodict
      [SeqRecord.mk 1 "X_MEMPRAGE" (PyFlag.pyBool false) 0 0 704 1,
       SeqRecord.mk 2 "Y_MEMPRAGE" (PyFlag.pyBool false) 0 0 176 1]) =
      some [Entry.ser 1, Entry.ser 2] :=
  t1_appends_both
    (SeqRecord.mk 1 "X_MEMPRAGE" (PyFlag.pyBool false) 0 0 704 1)
    (SeqRecord.mk 2 "Y_MEMPRAGE" (PyFlag.pyBool false) 0 0 176 1)
    (Or.inr rfl) rfl (by decide) (Or.inl rfl) rfl (by decide)

/-- C6: an AP resting-state record followed by a PA resting-state record
yields a rest bucket with the two parameter dictionaries in encounter
order, each carrying the matching record's series number as `item`. -/
theorem rest_two_records (r1 r2 : SeqRecord)
    (h1sl : r1.sl = 65) (h1nt : r1.nt = 300)
    (h1p : strContains r1.protocol_name "rffMRI_AP" = true)
    (h2sl : r2.sl = 65) (h2nt : r2.nt = 300)
    (h2ap : strContains r2.protocol_name "rffMRI_AP" = false)
    (h2p : strContains r2.protocol_name "rsfMRI_PA" = true) :
    lookupKey rest (infotodict [r1, r2]) =
      some [Entry.params r1.series_number "direction" "AP",
            Entry.params r2.series_number "direction" "PA"] := by
  have e1 := step_rest_ap initInfo r1 h1sl h1nt h1p
  have e2 := step_rest_pa (step initInfo r1) r2 h2sl h2nt h2ap h2p
  show lookupKey rest (step (step initInfo r1) r2) = _
  rw [e2, lookup_appendTo_eq, e1, lookup_appendTo_eq]
  rfl

/-- C6 witness: `rest_two_records` applied at concrete AP and PA
records with series numbers 11 and 12. -/
theorem rest_two_records_witness :
    lookupKey rest (infotodict
      [SeqRecord.mk 11 "study_rffMRI_AP" (PyFlag.pyBool false) 0 0 65 300,
       SeqRecord.mk 12 "study_rsfMRI_PA" (PyFlag.pyBool false) 0 0 65 300]) =
      some [Entry.params 11 "direction" "AP", Entry.params 12 "direction" "PA"] :=
  rest_two_records
    (SeqRecord.mk 11 "study_rffMRI_AP" (PyFlag.pyBool false) 0 0 65 300)
    (SeqRecord.mk 12 "study_rsfMRI_PA" (PyFlag.pyBool false) 0 0 65 300)
    rfl rfl (by decide) rfl rfl (by decide) (by decide)

/-- A record satisfies some rule condition of the chain: the disjunction
of the full (outer guard and protocol test) conditions of the eight
table rows. -/
def contributes (s : SeqRecord) : Bool :=
  ((s.sl == 176 || s.sl == 704) && (s.nt == 1) &&
      strContains s.protocol_name "MEMPRAGE") ||
  ((s.sl == 176) && (s.nt == 1) && strContains s.protocol_name "T2_SPACE") ||
  ((s.sl == 65) && (s.nt == 300) &&
      (strContains s.protocol_name "rffMRI_AP" ||
       strContains s.protocol_name "rsfMRI_PA")) ||
  ((s.sl == 32) && (s.nt == 136) && s.motion_corrected.truthy &&
      (strContains s.protocol_name "fMRI_listen" ||
       strContains s.protocol_name "fMRI_selfref")) ||
  ((s.sl == 260) && (s.nt == 1) &&
      (strContains s.protocol_name "Spin_Echo_EPI_AP" ||
       strContains s.protocol_name "Spin_Echo_EPI_PA"))

/-- A record matching no rule condition leaves the mapping untouched. -/
theorem step_no_match (info : Info) (s : SeqRecord)
    (h : contributes s = false) : step info s = info := by
  unfold step
  split_ifs with h1 h2 h3 h4 h5 h6 h7 h8 h9 h10 <;>
    first
      | rfl
      | simp_all [contributes]

/-- C7: a record satisfying none of the rule conditions contributes
nothing: classifying a sequence containing it gives exactly the same
mapping as classifying the sequence with that record removed (and no
error arises — the classifier is total). -/
theorem unmatched_record_no_effect (pre post : List SeqRecord)
    (s : SeqRecord) (h : contributes s = false) :
    infotodict (pre ++ s :: post) = infotodict (pre ++ post) := by
  unfold infotodict
  rw [List.foldl_append, List.foldl_append, List.foldl_cons,
    step_no_match _ _ h]

/-- C7 witness: `unmatched_record_no_effect` applied at the concrete
localizer record (sl = 999, nt = 1, protocol "Localizer") inserted
between a T1 record and a PA rest record. -/
theorem unmatched_record_no_effect_witness :
    contributes (SeqRecord.mk 3 "Localizer" (PyFlag.pyBool false) 0 0 999 1) = false ∧
    infotodict
      [SeqRecord.mk 1 "MEMPRAGE" (PyFlag.pyBool false) 0 0 176 1,
       SeqRecord.mk 3 "Localizer" (PyFlag.pyBool false) 0 0 999 1,
       SeqRecord.mk 12 "rsfMRI_PA" (PyFlag.pyBool false) 0 0 65 300] =
    infotodict
      [SeqRecord.mk 1 "MEMPRAGE" (PyFlag.pyBool false) 0 0 176 1,
       SeqRecord.mk 12 "rsfMRI_PA" (PyFlag.pyBool false) 0 0 65 300] :=
  ⟨by decide,
   unmatched_record_no_effect
     [SeqRecord.mk 1 "MEMPRAGE" (PyFlag.pyBool false) 0 0 176 1]
     [SeqRecord.mk 12 "rsfMRI_PA" (PyFlag.pyBool false) 0 0 65 300]
     (SeqRecord.mk 3 "Localizer" (PyFlag.pyBool false) 0 0 999 1)
     (by decide)⟩

/-- C2: the code treats the string "False" and the boolean False
DIFFERENTLY for a task record (sl = 32, nt = 136, protocol
"fMRI_listen"): the non-empty string "False" is truthy, so that record
is appended to the task bucket, while the boolean-False record is
skipped.  This evaluates the code at the failing input of the claim. -/
theorem motion_flag_divergence :
    lookupKey task (infotodict
      [SeqRecord.mk 5 "fMRI_listen" (PyFlag.pyStrF "False") 0 0 32 136]) =
      some [Entry.params 5 "task_name" "listen"] ∧
    lookupKey task (infotodict
      [SeqRecord.mk 5 "fMRI_listen" (PyFlag.pyBool false) 0 0 32 136]) =
      some [] ∧
    PyFlag.truthy (PyFlag.pyStrF "False") = true ∧
    PyFlag.truthy (PyFlag.pyBool false) = false := by
  refine ⟨by decide, by decide, rfl, rfl⟩

/-- The per-record fields that the rule chain reads: everything except
the unused in-plane dimensions `x` and `y`. -/
def sameRelevant (a b : SeqRecord) : Prop :=
  a.series_number = b.series_number ∧ a.protocol_name = b.protocol_name ∧
  a.motion_corrected = b.motion_corrected ∧ a.sl = b.sl ∧ a.nt = b.nt

/-- One iteration depends only on the relevant fields of the record. -/
theorem step_relevant (a b : SeqRecord) (h : sameRelevant a b)
    (info : Info) : step info a = step info b := by
  obtain ⟨h1, h2, h3, h4, h5⟩ := h
  simp only [step, h1, h2, h3, h4, h5]

/-- C8: the classifier is deterministic and pure — its output depends
only on the per-record fields the rules read, so two input sequences
that agree pointwise on those fields (in particular, two equal
sequences) produce equal result mappings. -/
theorem classifier_deterministic (l1 l2 : List SeqRecord)
    (h : List.Forall₂ sameRelevant l1 l2) :
    infotodict l1 = infotodict l2 := by
  unfold infotodict
  generalize initInfo = info
  induction h generalizing info with
  | nil => rfl
  | cons hab _ ih =>
    rw [List.foldl_cons, List.foldl_cons, step_relevant _ _ hab, ih]

/-- C8 witness: `classifier_deterministic` applied at two concrete
one-record sequences that differ only in the unused in-plane
dimensions. -/
theorem classifier_deterministic_witness :
    infotodict [SeqRecord.mk 1 "MEMPRAGE" (PyFlag.pyBool false) 0 0 176 1] =
    infotodict [SeqRecord.mk 1 "MEMPRAGE" (PyFlag.pyBool false) 256 256 176 1] :=
  classifier_deterministic _ _
    (List.Forall₂.cons ⟨rfl, rfl, rfl, rfl, rfl⟩ List.Forall₂.nil)

/-- One loop iteration, with the record it consumed handed back: the
loop body of `infotodict` reads the record's fields and contains no
assignment to the record or the sequence. -/
def stepTrace (acc : Info × List SeqRecord) (s : SeqRecord) :
    Info × List SeqRecord :=
  (step acc.1 s, acc.2 ++ [s])

/-- `infotodict` with the consumed records threaded through the fold,
making the frame condition on the input observable. -/
def infotodictTrace (seqinfo : List SeqRecord) : Info × List SeqRecord :=
  seqinfo.foldl stepTrace (initInfo, [])

/-- Unfolding the traced fold. -/
theorem foldl_stepTrace (l : List SeqRecord) (info : Info)
    (acc : List SeqRecord) :
    l.foldl stepTrace (info, acc) = (l.foldl step info, acc ++ l) := by
  induction l generalizing info acc with
  | nil => simp
  | cons s tl ih =>
    rw [List.foldl_cons, List.foldl_cons]
    show List.foldl stepTrace (step info s, acc ++ [s]) tl = _
    rw [ih]
    simp

/-- C9: the classifier does not modify its input — after the pass, the
sequence of records it consumed is exactly the input sequence, record
for record, and the mapping produced is that of `infotodict`. -/
theorem classifier_preserves_input (l : List SeqRecord) :
    (infotodictTrace l).2 = l ∧ (infotodictTrace l).1 = infotodict l := by
  unfold infotodictTrace infotodict
  rw [foldl_stepTrace]
  exact ⟨List.nil_append l, rfl⟩
